import Mathlib

/-!
Verification of the tax-calculator core (`src/tax_calculator.py`).

Modelling conventions:
* Python floats are modelled as rationals (`ℚ`).  Every monetary value in the
  program is produced by `round(x, 2)`, modelled here as `round2`, rounding to
  the nearest multiple of `1/100` (Python uses round-half-to-even on binary
  floats; no property below depends on behaviour at exact half-cent ties).
* `float('inf')` appears only as the upper limit of the last tax bracket; it is
  modelled by `Option ℚ` with `none` standing for the unbounded limit.
* The dict-shaped return values of the Python functions become structures with
  the same field names.
* `calculate_payment_schedule` raises `ValueError` on a bad frequency token;
  this is modelled with `Except FrequencyError`.
-/

namespace TaxCalc

/-- `round(x, 2)`: round to the nearest multiple of 1/100.
Stated via `Rat.floor` so that it evaluates by kernel reduction;
`round2_def` below identifies it with Mathlib's `round`. -/
def round2 (q : ℚ) : ℚ := (((100 * q + 1 / 2).floor : ℤ) : ℚ) / 100

/-- VAT_RATE = 0.24 -/
def VAT_RATE : ℚ := 24 / 100

/-- EFKA_MAIN_RATE = 0.1333 -/
def EFKA_MAIN_RATE : ℚ := 1333 / 10000

/-- EFKA_ADDITIONAL_RATE = 0.0667 -/
def EFKA_ADDITIONAL_RATE : ℚ := 667 / 10000

/-- EFKA_TOTAL_RATE = EFKA_MAIN_RATE + EFKA_ADDITIONAL_RATE -/
def EFKA_TOTAL_RATE : ℚ := EFKA_MAIN_RATE + EFKA_ADDITIONAL_RATE

/-- VALID_FREQUENCIES = ['monthly', 'quarterly', 'annual'] -/
def VALID_FREQUENCIES : List String := ["monthly", "quarterly", "annual"]

/-- Python's `str.lower()`, modelled as lower-casing each character.
(`Char.toLower` lower-cases ASCII letters; the frequency tokens involved are
all ASCII.) -/
def pyLower (s : String) : String := ⟨s.data.map Char.toLower⟩

/-- One entry of `INCOME_TAX_BRACKETS`: `(bracket_limit, rate)`,
with `none` standing for `float('inf')`. -/
structure Bracket where
  limit : Option ℚ
  rate : ℚ
deriving DecidableEq

/-- The fixed bracket table of the source. -/
def INCOME_TAX_BRACKETS : List Bracket :=
  [⟨some 10000, 9 / 100⟩, ⟨some 20000, 22 / 100⟩, ⟨some 30000, 28 / 100⟩,
   ⟨some 40000, 36 / 100⟩, ⟨none, 44 / 100⟩]

/-- One element of `bracket_breakdown`; `bracket_max = none` models the string
`'unlimited'` recorded for the unbounded bracket. -/
structure BracketEntry where
  bracket_min : ℚ
  bracket_max : Option ℚ
  rate : ℚ
  taxable_amount : ℚ
  tax_amount : ℚ
deriving DecidableEq

/-- The dict returned by `calculate_income_tax`. -/
structure BracketTaxResult where
  total_tax : ℚ
  effective_rate : ℚ
  bracket_breakdown : List BracketEntry
deriving DecidableEq

/-- `taxable_in_bracket = min(remaining_income, bracket_limit - previous_bracket_limit)`;
for the unbounded bracket the bracket size is infinite, so the minimum is
`remaining_income` itself. -/
def bracketSlice (b : Bracket) (remaining prev : ℚ) : ℚ :=
  match b.limit with
  | some lim => min remaining (lim - prev)
  | none => remaining

/-- The update `previous_bracket_limit = bracket_limit`.  For the unbounded
bracket the Python value is `inf`, but it is never read again (that bracket is
last and absorbs all remaining income), so we leave `prev` unchanged. -/
def nextPrev (b : Bracket) (prev : ℚ) : ℚ :=
  match b.limit with
  | some lim => lim
  | none => prev

/-- The `for bracket_limit, rate in INCOME_TAX_BRACKETS` loop of
`calculate_income_tax`: returns the accumulated (unrounded) `total_tax`
and the `bracket_breakdown` list. -/
def incomeTaxLoop : List Bracket → ℚ → ℚ → ℚ × List BracketEntry
  | [], _, _ => (0, [])
  | b :: rest, remaining, prev =>
    if remaining ≤ 0 then (0, [])
    else
      (bracketSlice b remaining prev * b.rate +
         (incomeTaxLoop rest (remaining - bracketSlice b remaining prev) (nextPrev b prev)).1,
       ⟨prev, b.limit, b.rate * 100, round2 (bracketSlice b remaining prev),
          round2 (bracketSlice b remaining prev * b.rate)⟩ ::
         (incomeTaxLoop rest (remaining - bracketSlice b remaining prev) (nextPrev b prev)).2)

/-- `calculate_income_tax` (src/tax_calculator.py lines 141-184). -/
def calculate_income_tax (taxable_income : ℚ) : BracketTaxResult :=
  if taxable_income ≤ 0 then ⟨0, 0, []⟩
  else
    ⟨round2 (incomeTaxLoop INCOME_TAX_BRACKETS taxable_income 0).1,
     round2 (if 0 < taxable_income then
         (incomeTaxLoop INCOME_TAX_BRACKETS taxable_income 0).1 / taxable_income * 100
       else 0),
     (incomeTaxLoop INCOME_TAX_BRACKETS taxable_income 0).2⟩

/-- `calculate_taxable_income` (lines 86-88). -/
def calculate_taxable_income (gross_income deductible_expenses : ℚ) : ℚ :=
  round2 (max 0 (gross_income - deductible_expenses))

/-- The dict returned by `calculate_vat`. -/
structure VatResult where
  vat_amount : ℚ
  rate : ℚ
  total_with_vat : ℚ
deriving DecidableEq

/-- `calculate_vat` (lines 219-226). -/
def calculate_vat (gross_income : ℚ) : VatResult :=
  ⟨round2 (gross_income * VAT_RATE), VAT_RATE * 100,
   round2 (gross_income + gross_income * VAT_RATE)⟩

/-- The dict returned by `calculate_social_security`. -/
structure SocialSecurityResult where
  total_contribution : ℚ
  main_insurance : ℚ
  additional_contributions : ℚ
  rate : ℚ
deriving DecidableEq

/-- `calculate_social_security` (lines 275-284). -/
def calculate_social_security (gross_income : ℚ) : SocialSecurityResult :=
  ⟨round2 (gross_income * EFKA_TOTAL_RATE),
   round2 (gross_income * EFKA_MAIN_RATE),
   round2 (gross_income * EFKA_ADDITIONAL_RATE),
   EFKA_TOTAL_RATE * 100⟩

/-- The dict returned by `calculate_all_taxes`. -/
structure TaxSummary where
  gross_income : ℚ
  deductible_expenses : ℚ
  taxable_income : ℚ
  income_tax : BracketTaxResult
  vat : VatResult
  social_security : SocialSecurityResult
  total_taxes : ℚ
  total_obligations : ℚ
  net_income : ℚ
  effective_total_rate : ℚ
deriving DecidableEq

/-- `calculate_all_taxes` (lines 287-400). -/
def calculate_all_taxes (gross_income deductible_expenses : ℚ) : TaxSummary :=
  if gross_income ≤ 0 then
    ⟨round2 gross_income, round2 deductible_expenses, 0,
     calculate_income_tax 0, calculate_vat 0, calculate_social_security 0,
     0, 0, 0, 0⟩
  else
    ⟨round2 gross_income, round2 deductible_expenses,
     round2 (calculate_taxable_income gross_income deductible_expenses),
     calculate_income_tax (calculate_taxable_income gross_income deductible_expenses),
     calculate_vat gross_income,
     calculate_social_security gross_income,
     round2 ((calculate_income_tax
         (calculate_taxable_income gross_income deductible_expenses)).total_tax +
       (calculate_social_security gross_income).total_contribution),
     round2 (((calculate_income_tax
         (calculate_taxable_income gross_income deductible_expenses)).total_tax +
       (calculate_social_security gross_income).total_contribution) +
       (calculate_vat gross_income).vat_amount),
     round2 (gross_income -
       ((calculate_income_tax
         (calculate_taxable_income gross_income deductible_expenses)).total_tax +
       (calculate_social_security gross_income).total_contribution)),
     round2 (if 0 < gross_income then
         ((calculate_income_tax
           (calculate_taxable_income gross_income deductible_expenses)).total_tax +
          (calculate_social_security gross_income).total_contribution) /
           gross_income * 100
       else 0)⟩

/-- The `ValueError` raised by `calculate_payment_schedule`: it carries the
offending value and the valid set (lines 458-461). -/
structure FrequencyError where
  value : String
  valid : List String
deriving DecidableEq

/-- The dict returned by `calculate_payment_schedule`; `schedule` is the list
of `(period_number, payment_amount)` entries. -/
structure PaymentSchedule where
  annual_total : ℚ
  frequency : String
  number_of_payments : ℕ
  payment_amount : ℚ
  schedule : List (ℕ × ℚ)
deriving DecidableEq

/-- The dict lookup `payments_per_year[frequency]` on an already-lowercased
valid token (lines 466-472). -/
def paymentsPerYear (freq : String) : ℕ :=
  if freq = "monthly" then 12 else if freq = "quarterly" then 4 else 1

/-- `calculate_payment_schedule` (lines 457-491). -/
def calculate_payment_schedule (annual_tax : ℚ) (frequency : String) :
    Except FrequencyError PaymentSchedule :=
  if pyLower frequency ∉ VALID_FREQUENCIES then
    .error ⟨frequency, VALID_FREQUENCIES⟩
  else
    .ok ⟨round2 annual_tax, pyLower frequency,
      paymentsPerYear (pyLower frequency),
      round2 (annual_tax / (paymentsPerYear (pyLower frequency) : ℚ)),
      (List.range (paymentsPerYear (pyLower frequency))).map
        (fun i => (i + 1, round2 (annual_tax / (paymentsPerYear (pyLower frequency) : ℚ))))⟩

/-! ### Basic facts about `round2` -/

lemma round2_def (q : ℚ) : round2 q = ((⌊100 * q + 1 / 2⌋ : ℤ) : ℚ) / 100 := by
  rw [round2, Rat.floor_def', ← Rat.floor_def]

lemma round2_round (q : ℚ) : round2 q = (round (100 * q) : ℚ) / 100 := by
  rw [round2_def, round_eq]

lemma round2_zero : round2 0 = 0 := by
  rw [round2_round]
  simp

lemma round2_intCast (n : ℤ) : round2 (n : ℚ) = n := by
  rw [round2_round, show (100 : ℚ) * n = ((100 * n : ℤ) : ℚ) by push_cast; ring,
    round_intCast]
  push_cast
  ring

lemma round2_mono {x y : ℚ} (h : x ≤ y) : round2 x ≤ round2 y := by
  rw [round2_def, round2_def]
  have hf : (⌊100 * x + 1 / 2⌋ : ℤ) ≤ ⌊100 * y + 1 / 2⌋ :=
    Int.floor_mono (by linarith)
  have : ((⌊100 * x + 1 / 2⌋ : ℤ) : ℚ) ≤ ((⌊100 * y + 1 / 2⌋ : ℤ) : ℚ) := by
    exact_mod_cast hf
  linarith

lemma round2_nonneg {x : ℚ} (h : 0 ≤ x) : 0 ≤ round2 x := by
  have := round2_mono h
  rwa [round2_zero] at this

lemma round2_nonpos {x : ℚ} (h : x ≤ 0) : round2 x ≤ 0 := by
  have := round2_mono h
  rwa [round2_zero] at this

lemma abs_round2_sub (x : ℚ) : |round2 x - x| ≤ 1 / 200 := by
  have h := abs_sub_round (100 * x)
  rw [abs_sub_comm] at h
  rw [round2_round]
  rw [abs_le] at h ⊢
  constructor <;> [linarith [h.1]; linarith [h.2]]

lemma round2_le_of_le_sub {x : ℚ} (c : ℚ) (h : x ≤ c - 1 / 200) : round2 x ≤ c := by
  have := abs_round2_sub x
  rw [abs_le] at this
  linarith [this.2]

/-! ### Unfolding the bracket loop -/

lemma incomeTaxLoop_cons (b : Bracket) (rest : List Bracket) (r p : ℚ) :
    incomeTaxLoop (b :: rest) r p =
      if r ≤ 0 then (0, [])
      else
        (bracketSlice b r p * b.rate +
           (incomeTaxLoop rest (r - bracketSlice b r p) (nextPrev b p)).1,
         ⟨p, b.limit, b.rate * 100, round2 (bracketSlice b r p),
            round2 (bracketSlice b r p * b.rate)⟩ ::
           (incomeTaxLoop rest (r - bracketSlice b r p) (nextPrev b p)).2) := rfl

lemma incomeTaxLoop_stop {b : Bracket} {rest : List Bracket} {r : ℚ} (p : ℚ)
    (h : r ≤ 0) : incomeTaxLoop (b :: rest) r p = (0, []) := by
  rw [incomeTaxLoop_cons, if_pos h]

lemma incomeTaxLoop_nil (r p : ℚ) : incomeTaxLoop [] r p = (0, []) := rfl

/-- Loop outcome when `0 < r ≤ 10000`: one bracket is visited. -/
lemma loop_case1 {r : ℚ} (h0 : 0 < r) (h1 : r ≤ 10000) :
    incomeTaxLoop INCOME_TAX_BRACKETS r 0 =
      (r * (9 / 100), [⟨0, some 10000, 9, round2 r, round2 (r * (9 / 100))⟩]) := by
  simp only [INCOME_TAX_BRACKETS]
  rw [incomeTaxLoop_cons, if_neg (by linarith)]
  simp only [bracketSlice, nextPrev]
  rw [show (10000 : ℚ) - 0 = 10000 by norm_num, min_eq_left h1, sub_self,
    incomeTaxLoop_stop _ le_rfl]
  norm_num

/-- Loop outcome when `10000 < r ≤ 20000`: two brackets are visited. -/
lemma loop_case2 {r : ℚ} (h0 : 10000 < r) (h1 : r ≤ 20000) :
    incomeTaxLoop INCOME_TAX_BRACKETS r 0 =
      (900 + (r - 10000) * (22 / 100),
       [⟨0, some 10000, 9, 10000, 900⟩,
        ⟨10000, some 20000, 22, round2 (r - 10000),
          round2 ((r - 10000) * (22 / 100))⟩]) := by
  simp only [INCOME_TAX_BRACKETS]
  rw [incomeTaxLoop_cons, if_neg (by linarith)]
  simp only [bracketSlice, nextPrev]
  rw [show (10000 : ℚ) - 0 = 10000 by norm_num, min_eq_right (by linarith)]
  rw [incomeTaxLoop_cons, if_neg (by linarith)]
  simp only [bracketSlice, nextPrev]
  rw [show (20000 : ℚ) - 10000 = 10000 by norm_num, min_eq_left (by linarith),
    sub_self, incomeTaxLoop_stop _ le_rfl]
  norm_num [round2_def]

/-- Loop outcome when `20000 < r ≤ 30000`: three brackets are visited. -/
lemma loop_case3 {r : ℚ} (h0 : 20000 < r) (h1 : r ≤ 30000) :
    incomeTaxLoop INCOME_TAX_BRACKETS r 0 =
      (3100 + (r - 20000) * (28 / 100),
       [⟨0, some 10000, 9, 10000, 900⟩,
        ⟨10000, some 20000, 22, 10000, 2200⟩,
        ⟨20000, some 30000, 28, round2 (r - 20000),
          round2 ((r - 20000) * (28 / 100))⟩]) := by
  simp only [INCOME_TAX_BRACKETS]
  rw [incomeTaxLoop_cons, if_neg (by linarith)]
  simp only [bracketSlice, nextPrev]
  rw [show (10000 : ℚ) - 0 = 10000 by norm_num, min_eq_right (by linarith)]
  rw [incomeTaxLoop_cons, if_neg (by linarith)]
  simp only [bracketSlice, nextPrev]
  rw [show (20000 : ℚ) - 10000 = 10000 by norm_num, min_eq_right (by linarith)]
  rw [show r - 10000 - 10000 = r - 20000 by ring]
  rw [incomeTaxLoop_cons, if_neg (by linarith)]
  simp only [bracketSlice, nextPrev]
  rw [show (30000 : ℚ) - 20000 = 10000 by norm_num, min_eq_left (by linarith),
    sub_self, incomeTaxLoop_stop _ le_rfl]
  norm_num [round2_def]
  ring

/-- Loop outcome when `30000 < r ≤ 40000`: four brackets are visited. -/
lemma loop_case4 {r : ℚ} (h0 : 30000 < r) (h1 : r ≤ 40000) :
    incomeTaxLoop INCOME_TAX_BRACKETS r 0 =
      (5900 + (r - 30000) * (36 / 100),
       [⟨0, some 10000, 9, 10000, 900⟩,
        ⟨10000, some 20000, 22, 10000, 2200⟩,
        ⟨20000, some 30000, 28, 10000, 2800⟩,
        ⟨30000, some 40000, 36, round2 (r - 30000),
          round2 ((r - 30000) * (36 / 100))⟩]) := by
  simp only [INCOME_TAX_BRACKETS]
  rw [incomeTaxLoop_cons, if_neg (by linarith)]
  simp only [bracketSlice, nextPrev]
  rw [show (10000 : ℚ) - 0 = 10000 by norm_num, min_eq_right (by linarith)]
  rw [incomeTaxLoop_cons, if_neg (by linarith)]
  simp only [bracketSlice, nextPrev]
  rw [show (20000 : ℚ) - 10000 = 10000 by norm_num, min_eq_right (by linarith)]
  rw [show r - 10000 - 10000 = r - 20000 by ring]
  rw [incomeTaxLoop_cons, if_neg (by linarith)]
  simp only [bracketSlice, nextPrev]
  rw [show (30000 : ℚ) - 20000 = 10000 by norm_num, min_eq_right (by linarith)]
  rw [show r - 20000 - 10000 = r - 30000 by ring]
  rw [incomeTaxLoop_cons, if_neg (by linarith)]
  simp only [bracketSlice, nextPrev]
  rw [show (40000 : ℚ) - 30000 = 10000 by norm_num, min_eq_left (by linarith),
    sub_self, incomeTaxLoop_stop _ le_rfl]
  norm_num [round2_def]
  ring

/-- Loop outcome when `40000 < r`: all five brackets are visited; the unbounded
bracket absorbs the remainder. -/
lemma loop_case5 {r : ℚ} (h0 : 40000 < r) :
    incomeTaxLoop INCOME_TAX_BRACKETS r 0 =
      (9500 + (r - 40000) * (44 / 100),
       [⟨0, some 10000, 9, 10000, 900⟩,
        ⟨10000, some 20000, 22, 10000, 2200⟩,
        ⟨20000, some 30000, 28, 10000, 2800⟩,
        ⟨30000, some 40000, 36, 10000, 3600⟩,
        ⟨40000, none, 44, round2 (r - 40000),
          round2 ((r - 40000) * (44 / 100))⟩]) := by
  simp only [INCOME_TAX_BRACKETS]
  rw [incomeTaxLoop_cons, if_neg (by linarith)]
  simp only [bracketSlice, nextPrev]
  rw [show (10000 : ℚ) - 0 = 10000 by norm_num, min_eq_right (by linarith)]
  rw [incomeTaxLoop_cons, if_neg (by linarith)]
  simp only [bracketSlice, nextPrev]
  rw [show (20000 : ℚ) - 10000 = 10000 by norm_num, min_eq_right (by linarith)]
  rw [show r - 10000 - 10000 = r - 20000 by ring]
  rw [incomeTaxLoop_cons, if_neg (by linarith)]
  simp only [bracketSlice, nextPrev]
  rw [show (30000 : ℚ) - 20000 = 10000 by norm_num, min_eq_right (by linarith)]
  rw [show r - 20000 - 10000 = r - 30000 by ring]
  rw [incomeTaxLoop_cons, if_neg (by linarith)]
  simp only [bracketSlice, nextPrev]
  rw [show (40000 : ℚ) - 30000 = 10000 by norm_num, min_eq_right (by linarith)]
  rw [show r - 30000 - 10000 = r - 40000 by ring]
  rw [incomeTaxLoop_cons, if_neg (by linarith)]
  simp only [bracketSlice, nextPrev]
  rw [sub_self, incomeTaxLoop_nil]
  norm_num [round2_def]
  ring

/-! ### The spec-side description of the progressive walk (claim C1)

The claim describes the algorithm as a walk over a table that lists each
bracket with its own lower bound; the following definitions transcribe that
wording, to be compared with the source embedding `calculate_income_tax`. -/

/-- The claim's table: `(lower bound, upper bound or unbounded, rate)` rows
`[(10000, 9%), (20000, 22%), (30000, 28%), (40000, 36%), (unbounded, 44%)]`
walked from lower bound 0. -/
def SPEC_BRACKET_TABLE : List (ℚ × Option ℚ × ℚ) :=
  [(0, some 10000, 9 / 100), (10000, some 20000, 22 / 100),
   (20000, some 30000, 28 / 100), (30000, some 40000, 36 / 100),
   (40000, none, 44 / 100)]

/-- The claim's `slice = min(remaining, bracket width)`; an unbounded bracket
has no width cap. -/
def specSlice (lo : ℚ) (hi : Option ℚ) (remaining : ℚ) : ℚ :=
  match hi with
  | some h => min remaining (h - lo)
  | none => remaining

/-- The claim's walk: take a slice per bracket, add `slice × rate` to the
total, append one breakdown entry, subtract the slice, and stop before any
bracket once remaining is 0. -/
def specWalk : List (ℚ × Option ℚ × ℚ) → ℚ → ℚ × List BracketEntry
  | [], _ => (0, [])
  | (lo, hi, rate) :: rest, remaining =>
    if remaining ≤ 0 then (0, [])
    else
      (specSlice lo hi remaining * rate +
         (specWalk rest (remaining - specSlice lo hi remaining)).1,
       ⟨lo, hi, rate * 100, round2 (specSlice lo hi remaining),
          round2 (specSlice lo hi remaining * rate)⟩ ::
         (specWalk rest (remaining - specSlice lo hi remaining)).2)

/-- The claim's progressive-bracket result: for `T > 0` the walk's rounded
total, the rounded effective rate `total/T × 100`, and the walk's breakdown;
for `T ≤ 0` the distinct zero base case. -/
def specProgressiveTax (T : ℚ) : BracketTaxResult :=
  if T ≤ 0 then ⟨0, 0, []⟩
  else
    ⟨round2 (specWalk SPEC_BRACKET_TABLE T).1,
     round2 ((specWalk SPEC_BRACKET_TABLE T).1 / T * 100),
     (specWalk SPEC_BRACKET_TABLE T).2⟩

/-- Pair each source bracket with the running lower bound, producing the
spec-shaped table. -/
def annotate : List Bracket → ℚ → List (ℚ × Option ℚ × ℚ)
  | [], _ => []
  | b :: rest, p => (p, b.limit, b.rate) :: annotate rest (nextPrev b p)

lemma specWalk_annotate (bs : List Bracket) (p : ℚ) (r : ℚ) :
    specWalk (annotate bs p) r = incomeTaxLoop bs r p := by
  induction bs generalizing p r with
  | nil => rfl
  | cons b rest ih =>
    rw [annotate, specWalk, incomeTaxLoop_cons]
    by_cases h : r ≤ 0
    · rw [if_pos h, if_pos h]
    · rw [if_neg h, if_neg h]
      have hs : specSlice p b.limit r = bracketSlice b r p := by
        cases hb : b.limit <;> simp [specSlice, bracketSlice, hb]
      rw [hs, ih]

lemma annotate_table : annotate INCOME_TAX_BRACKETS 0 = SPEC_BRACKET_TABLE := by
  simp [annotate, INCOME_TAX_BRACKETS, SPEC_BRACKET_TABLE, nextPrev]

/-! ### Closed form of the loop's unrounded total -/

/-- Closed form of the unrounded total tax accumulated by the loop. -/
def rawTax (r : ℚ) : ℚ :=
  if r ≤ 10000 then r * (9 / 100)
  else if r ≤ 20000 then 900 + (r - 10000) * (22 / 100)
  else if r ≤ 30000 then 3100 + (r - 20000) * (28 / 100)
  else if r ≤ 40000 then 5900 + (r - 30000) * (36 / 100)
  else 9500 + (r - 40000) * (44 / 100)

lemma loop_fst_eq_rawTax {r : ℚ} (h : 0 < r) :
    (incomeTaxLoop INCOME_TAX_BRACKETS r 0).1 = rawTax r := by
  rcases le_or_lt r 10000 with h1 | h1
  · rw [loop_case1 h h1, rawTax, if_pos h1]
  rcases le_or_lt r 20000 with h2 | h2
  · rw [loop_case2 h1 h2, rawTax, if_neg (not_le.mpr h1), if_pos h2]
  rcases le_or_lt r 30000 with h3 | h3
  · rw [loop_case3 h2 h3, rawTax, if_neg (not_le.mpr h1), if_neg (not_le.mpr h2),
      if_pos h3]
  rcases le_or_lt r 40000 with h4 | h4
  · rw [loop_case4 h3 h4, rawTax, if_neg (not_le.mpr h1), if_neg (not_le.mpr h2),
      if_neg (not_le.mpr h3), if_pos h4]
  · rw [loop_case5 h4, rawTax, if_neg (not_le.mpr h1), if_neg (not_le.mpr h2),
      if_neg (not_le.mpr h3), if_neg (not_le.mpr h4)]

lemma rawTax_nonneg {r : ℚ} (h : 0 < r) : 0 ≤ rawTax r := by
  rw [rawTax]
  split_ifs <;> nlinarith

lemma rawTax_mono {r₁ r₂ : ℚ} (hle : r₁ ≤ r₂) : rawTax r₁ ≤ rawTax r₂ := by
  rw [rawTax, rawTax]
  split_ifs <;> nlinarith

lemma calculate_income_tax_nonpos {T : ℚ} (h : T ≤ 0) :
    calculate_income_tax T = ⟨0, 0, []⟩ := by
  rw [calculate_income_tax, if_pos h]

lemma total_tax_of_pos {T : ℚ} (h : 0 < T) :
    (calculate_income_tax T).total_tax = round2 (rawTax T) := by
  rw [calculate_income_tax, if_neg (not_le.mpr h)]
  exact congrArg round2 (loop_fst_eq_rawTax h)

lemma round2_neg_of_le {x : ℚ} (h : x ≤ -1 / 100) : round2 x < 0 := by
  have h1 := round2_mono h
  have h2 : round2 (-1 / 100 : ℚ) = -1 / 100 := by norm_num [round2_def]
  rw [h2] at h1
  linarith

/-! ### Claim theorems -/

/-- C1: for every taxable income `T > 0`, `calculate_income_tax T` is exactly
the progressive-bracket result of walking the fixed table from lower bound 0
with early stop (`specProgressiveTax`, transcribed from the claim wording); in
particular `T = 50000` gives total tax 13900.00 and effective rate 27.80, and
`T = 0` returns the distinct base case of zero tax, zero rate and an empty
breakdown. -/
theorem C1_income_tax_bracket_walk :
    (∀ T : ℚ, 0 < T → calculate_income_tax T = specProgressiveTax T) ∧
    (calculate_income_tax 50000).total_tax = 13900 ∧
    (calculate_income_tax 50000).effective_rate = 2780 / 100 ∧
    calculate_income_tax 0 = ⟨0, 0, []⟩ := by
  refine ⟨fun T hT => ?_, ?_, ?_, calculate_income_tax_nonpos le_rfl⟩
  · rw [calculate_income_tax, specProgressiveTax, if_neg (not_le.mpr hT),
      if_neg (not_le.mpr hT), if_pos hT, ← annotate_table, specWalk_annotate]
  · norm_num [calculate_income_tax, incomeTaxLoop, INCOME_TAX_BRACKETS,
      bracketSlice, nextPrev, min_def, round2_def]
  · norm_num [calculate_income_tax, incomeTaxLoop, INCOME_TAX_BRACKETS,
      bracketSlice, nextPrev, min_def, round2_def]

/-- Witness for C1 at the concrete input `T = 3000`. -/
theorem C1_income_tax_bracket_walk_witness :
    calculate_income_tax 3000 = specProgressiveTax 3000 :=
  C1_income_tax_bracket_walk.1 3000 (by norm_num)

/-- C5: for every gross income `g ≤ 0` and any expenses `e`,
`calculate_all_taxes` short-circuits to the all-zero summary whose sub-results
are the operations applied to input 0, so the bracket breakdown is empty and
VAT and social security are 0. -/
theorem C5_nonpositive_gross_all_zero :
    ∀ g e : ℚ, g ≤ 0 →
      calculate_all_taxes g e =
        ⟨round2 g, round2 e, 0, calculate_income_tax 0, calculate_vat 0,
         calculate_social_security 0, 0, 0, 0, 0⟩ ∧
      calculate_income_tax 0 = ⟨0, 0, []⟩ ∧
      calculate_vat 0 = ⟨0, 24, 0⟩ ∧
      calculate_social_security 0 = ⟨0, 0, 0, 20⟩ := by
  intro g e hg
  refine ⟨by rw [calculate_all_taxes, if_pos hg], calculate_income_tax_nonpos le_rfl,
    ?_, ?_⟩
  · norm_num [calculate_vat, VAT_RATE, round2_def]
  · norm_num [calculate_social_security, EFKA_TOTAL_RATE, EFKA_MAIN_RATE,
      EFKA_ADDITIONAL_RATE, round2_def]

/-- Witness for C5 at the concrete input `g = -5`, `e = 3`. -/
theorem C5_nonpositive_gross_all_zero_witness :
    calculate_all_taxes (-5) 3 =
      ⟨round2 (-5), round2 3, 0, calculate_income_tax 0, calculate_vat 0,
       calculate_social_security 0, 0, 0, 0, 0⟩ :=
  (C5_nonpositive_gross_all_zero (-5) 3 (by norm_num)).1

/-- C6: for every taxable income `T ≥ 0`, the per-bracket taxable amounts
recorded in the breakdown sum to `T` within 5 × 0.01. -/
theorem C6_breakdown_sums_to_taxable_income :
    ∀ T : ℚ, 0 ≤ T →
      |(((calculate_income_tax T).bracket_breakdown.map
          (·.taxable_amount)).sum) - T| ≤ 5 * (1 / 100) := by
  intro T hT
  rcases eq_or_lt_of_le hT with h0 | h0
  · rw [← h0, calculate_income_tax_nonpos le_rfl]
    norm_num
  have hb : (calculate_income_tax T).bracket_breakdown =
      (incomeTaxLoop INCOME_TAX_BRACKETS T 0).2 := by
    rw [calculate_income_tax, if_neg (not_le.mpr h0)]
  rw [hb]
  rcases le_or_lt T 10000 with h1 | h1
  · rw [loop_case1 h0 h1]
    have hr := abs_round2_sub T
    simp only [List.map_cons, List.map_nil, List.sum_cons, List.sum_nil, add_zero]
    rw [abs_le] at hr ⊢
    constructor <;> linarith [hr.1, hr.2]
  rcases le_or_lt T 20000 with h2 | h2
  · rw [loop_case2 h1 h2]
    have hr := abs_round2_sub (T - 10000)
    simp only [List.map_cons, List.map_nil, List.sum_cons, List.sum_nil, add_zero]
    rw [abs_le] at hr ⊢
    constructor <;> linarith [hr.1, hr.2]
  rcases le_or_lt T 30000 with h3 | h3
  · rw [loop_case3 h2 h3]
    have hr := abs_round2_sub (T - 20000)
    simp only [List.map_cons, List.map_nil, List.sum_cons, List.sum_nil, add_zero]
    rw [abs_le] at hr ⊢
    constructor <;> linarith [hr.1, hr.2]
  rcases le_or_lt T 40000 with h4 | h4
  · rw [loop_case4 h3 h4]
    have hr := abs_round2_sub (T - 30000)
    simp only [List.map_cons, List.map_nil, List.sum_cons, List.sum_nil, add_zero]
    rw [abs_le] at hr ⊢
    constructor <;> linarith [hr.1, hr.2]
  · rw [loop_case5 h4]
    have hr := abs_round2_sub (T - 40000)
    simp only [List.map_cons, List.map_nil, List.sum_cons, List.sum_nil, add_zero]
    rw [abs_le] at hr ⊢
    constructor <;> linarith [hr.1, hr.2]

/-- Witness for C6 at the concrete input `T = 15000`. -/
theorem C6_breakdown_sums_to_taxable_income_witness :
    |(((calculate_income_tax 15000).bracket_breakdown.map
        (·.taxable_amount)).sum) - 15000| ≤ 5 * (1 / 100) :=
  C6_breakdown_sums_to_taxable_income 15000 (by norm_num)

/-- C7: the total income tax is monotone in taxable income. -/
theorem C7_income_tax_monotone :
    ∀ T₁ T₂ : ℚ, 0 ≤ T₁ → T₁ ≤ T₂ →
      (calculate_income_tax T₁).total_tax ≤ (calculate_income_tax T₂).total_tax := by
  intro T₁ T₂ _ hle
  rcases le_or_lt T₁ 0 with h1 | h1
  · rw [calculate_income_tax_nonpos h1]
    rcases le_or_lt T₂ 0 with h2 | h2
    · rw [calculate_income_tax_nonpos h2]
    · rw [total_tax_of_pos h2]
      simpa using round2_nonneg (rawTax_nonneg h2)
  · rw [total_tax_of_pos h1, total_tax_of_pos (h1.trans_le hle)]
    exact round2_mono (rawTax_mono hle)

/-- Witness for C7 at the concrete inputs `T₁ = 9000 ≤ T₂ = 45000`. -/
theorem C7_income_tax_monotone_witness :
    (calculate_income_tax 9000).total_tax ≤ (calculate_income_tax 45000).total_tax :=
  C7_income_tax_monotone 9000 45000 (by norm_num) (by norm_num)

/-- C9: `calculate_taxable_income` returns `round2 (max 0 (g - e))`, never
negative, with no error conditions on its domain. -/
theorem C9_taxable_income_formula :
    ∀ g e : ℚ, 0 ≤ g → 0 ≤ e →
      calculate_taxable_income g e = round2 (max 0 (g - e)) ∧
      0 ≤ calculate_taxable_income g e := by
  intro g e _ _
  exact ⟨rfl, round2_nonneg (le_max_left _ _)⟩

/-- Witness for C9 at the concrete input `g = 10000`, `e = 15000`. -/
theorem C9_taxable_income_formula_witness :
    calculate_taxable_income 10000 15000 = round2 (max 0 (10000 - 15000 : ℚ)) ∧
    (0 : ℚ) ≤ calculate_taxable_income 10000 15000 :=
  C9_taxable_income_formula 10000 15000 (by norm_num) (by norm_num)

/-- C10 fails as stated: at `g = -0.01 < 0` the VAT amount is
`round(-0.01 × 0.24, 2) = round(-0.0024, 2) = 0`, not strictly negative. -/
theorem C10_negative_gross_counterexample :
    (-1 / 100 : ℚ) < 0 ∧ ¬ (calculate_vat (-1 / 100)).vat_amount < 0 := by
  constructor
  · norm_num
  · norm_num [calculate_vat, VAT_RATE, round2_def]

/-- C10 (amended): `calculate_vat` and `calculate_social_security` apply their
flat-rate formulas unguarded on every input; for `g < 0` all returned amounts
are the rounded negative products, hence nonpositive, and strictly negative
whenever `g ≤ -1` (amounts under half a cent round to 0). -/
theorem C10_unguarded_flat_rates :
    ∀ g : ℚ, g < 0 →
      ((calculate_vat g).vat_amount = round2 (g * (24 / 100)) ∧
        (calculate_vat g).vat_amount ≤ 0) ∧
      ((calculate_social_security g).main_insurance = round2 (g * (1333 / 10000)) ∧
        (calculate_social_security g).main_insurance ≤ 0) ∧
      ((calculate_social_security g).additional_contributions =
          round2 (g * (667 / 10000)) ∧
        (calculate_social_security g).additional_contributions ≤ 0) ∧
      ((calculate_social_security g).total_contribution = round2 (g * (20 / 100)) ∧
        (calculate_social_security g).total_contribution ≤ 0) ∧
      (g ≤ -1 →
        (calculate_vat g).vat_amount < 0 ∧
        (calculate_social_security g).main_insurance < 0 ∧
        (calculate_social_security g).additional_contributions < 0 ∧
        (calculate_social_security g).total_contribution < 0) := by
  intro g hg
  have hv : (calculate_vat g).vat_amount = round2 (g * (24 / 100)) := by
    norm_num [calculate_vat, VAT_RATE]
  have hm : (calculate_social_security g).main_insurance =
      round2 (g * (1333 / 10000)) := by
    norm_num [calculate_social_security, EFKA_MAIN_RATE]
  have ha : (calculate_social_security g).additional_contributions =
      round2 (g * (667 / 10000)) := by
    norm_num [calculate_social_security, EFKA_ADDITIONAL_RATE]
  have ht : (calculate_social_security g).total_contribution =
      round2 (g * (20 / 100)) := by
    norm_num [calculate_social_security, EFKA_TOTAL_RATE, EFKA_MAIN_RATE,
      EFKA_ADDITIONAL_RATE]
  refine ⟨⟨hv, ?_⟩, ⟨hm, ?_⟩, ⟨ha, ?_⟩, ⟨ht, ?_⟩, fun hg1 => ⟨?_, ?_, ?_, ?_⟩⟩
  · rw [hv]; exact round2_nonpos (by nlinarith)
  · rw [hm]; exact round2_nonpos (by nlinarith)
  · rw [ha]; exact round2_nonpos (by nlinarith)
  · rw [ht]; exact round2_nonpos (by nlinarith)
  · rw [hv]; exact round2_neg_of_le (by nlinarith)
  · rw [hm]; exact round2_neg_of_le (by nlinarith)
  · rw [ha]; exact round2_neg_of_le (by nlinarith)
  · rw [ht]; exact round2_neg_of_le (by nlinarith)

/-- Witness for the amended C10 at the concrete input `g = -2`. -/
theorem C10_unguarded_flat_rates_witness :
    (calculate_vat (-2)).vat_amount < 0 ∧
    (calculate_social_security (-2)).total_contribution < 0 := by
  have h := C10_unguarded_flat_rates (-2) (by norm_num)
  exact ⟨(h.2.2.2.2 (by norm_num)).1, (h.2.2.2.2 (by norm_num)).2.2.2⟩

/-- C2: for `g > 0`, `e ≥ 0`, `calculate_all_taxes` computes taxable income via
`calculate_taxable_income`, runs the bracket tax on it and VAT and social
security on `g`, and aggregates: total taxes = income tax + social security
(VAT excluded), total obligations = total taxes + VAT, net income = g − total
taxes, effective rate = total taxes / g × 100, each rounded to 2 decimals; in
particular `g = 35000, e = 5000` gives taxable 30000, income tax 5900, social
security 7000, total taxes 12900, net income 22100. -/
theorem C2_calculate_all_taxes_aggregation :
    (∀ g e : ℚ, 0 < g → 0 ≤ e →
      calculate_all_taxes g e =
        ⟨round2 g, round2 e, round2 (calculate_taxable_income g e),
         calculate_income_tax (calculate_taxable_income g e),
         calculate_vat g, calculate_social_security g,
         round2 ((calculate_income_tax (calculate_taxable_income g e)).total_tax +
           (calculate_social_security g).total_contribution),
         round2 (((calculate_income_tax (calculate_taxable_income g e)).total_tax +
           (calculate_social_security g).total_contribution) +
           (calculate_vat g).vat_amount),
         round2 (g - ((calculate_income_tax (calculate_taxable_income g e)).total_tax +
           (calculate_social_security g).total_contribution)),
         round2 (((calculate_income_tax (calculate_taxable_income g e)).total_tax +
           (calculate_social_security g).total_contribution) / g * 100)⟩) ∧
    (calculate_all_taxes 35000 5000).taxable_income = 30000 ∧
    (calculate_all_taxes 35000 5000).income_tax.total_tax = 5900 ∧
    (calculate_all_taxes 35000 5000).social_security.total_contribution = 7000 ∧
    (calculate_all_taxes 35000 5000).total_taxes = 12900 ∧
    (calculate_all_taxes 35000 5000).net_income = 22100 := by
  refine ⟨fun g e hg he => ?_, ?_, ?_, ?_, ?_, ?_⟩
  · rw [calculate_all_taxes, if_neg (not_le.mpr hg), if_pos hg]
  all_goals
    norm_num [calculate_all_taxes, calculate_taxable_income, calculate_income_tax,
      calculate_social_security, calculate_vat, incomeTaxLoop, INCOME_TAX_BRACKETS,
      bracketSlice, nextPrev, min_def, max_def, EFKA_TOTAL_RATE, EFKA_MAIN_RATE,
      EFKA_ADDITIONAL_RATE, VAT_RATE, round2_def]

/-- Witness for C2 at the concrete input `g = 15000`, `e = 0`. -/
theorem C2_calculate_all_taxes_aggregation_witness :
    calculate_all_taxes 15000 0 =
      ⟨round2 15000, round2 0, round2 (calculate_taxable_income 15000 0),
       calculate_income_tax (calculate_taxable_income 15000 0),
       calculate_vat 15000, calculate_social_security 15000,
       round2 ((calculate_income_tax (calculate_taxable_income 15000 0)).total_tax +
         (calculate_social_security 15000).total_contribution),
       round2 (((calculate_income_tax (calculate_taxable_income 15000 0)).total_tax +
         (calculate_social_security 15000).total_contribution) +
         (calculate_vat 15000).vat_amount),
       round2 (15000 - ((calculate_income_tax (calculate_taxable_income 15000 0)).total_tax +
         (calculate_social_security 15000).total_contribution)),
       round2 (((calculate_income_tax (calculate_taxable_income 15000 0)).total_tax +
         (calculate_social_security 15000).total_contribution) / 15000 * 100)⟩ :=
  C2_calculate_all_taxes_aggregation.1 15000 0 (by norm_num) (by norm_num)

/-- C3: social security is computed on gross income only: main insurance
`round(g × 0.1333, 2)`, additional `round(g × 0.0667, 2)`, and the total
directly as `round(g × 0.20, 2)` from the combined rate — not the sum of the
two rounded portions (they differ at `g = 0.12`); inside `calculate_all_taxes`
the social-security part never depends on the expense value. -/
theorem C3_social_security_rates :
    (∀ g : ℚ, 0 ≤ g →
      calculate_social_security g =
        ⟨round2 (g * (20 / 100)), round2 (g * (1333 / 10000)),
         round2 (g * (667 / 10000)), 20⟩) ∧
    (∀ g e : ℚ, 0 < g →
      (calculate_all_taxes g e).social_security = calculate_social_security g) ∧
    round2 ((12 / 100) * (1333 / 10000)) + round2 ((12 / 100) * (667 / 10000)) ≠
      (calculate_social_security (12 / 100)).total_contribution := by
  refine ⟨fun g _ => ?_, fun g e hg => ?_, ?_⟩
  · norm_num [calculate_social_security, EFKA_TOTAL_RATE, EFKA_MAIN_RATE,
      EFKA_ADDITIONAL_RATE]
  · rw [calculate_all_taxes, if_neg (not_le.mpr hg)]
  · norm_num [calculate_social_security, EFKA_TOTAL_RATE, EFKA_MAIN_RATE,
      EFKA_ADDITIONAL_RATE, round2_def]

/-- Witness for C3 at the concrete input `g = 30000`. -/
theorem C3_social_security_rates_witness :
    calculate_social_security 30000 =
      ⟨round2 (30000 * (20 / 100)), round2 (30000 * (1333 / 10000)),
       round2 (30000 * (667 / 10000)), 20⟩ :=
  C3_social_security_rates.1 30000 (by norm_num)

/-- C4: `calculate_payment_schedule` fails with the invalid-frequency error
(carrying the offending value and the valid set) iff the lowercased token is
outside `VALID_FREQUENCIES`; for a valid token it returns the fixed count
(monthly 12, quarterly 4, annual 1), the per-payment amount
`round(A / count, 2)`, and a schedule of exactly `count` entries
`(i, amount)` for `i = 1..count`; no other error exists. -/
theorem C4_payment_schedule_frequency_validation :
    ∀ (A : ℚ) (f : String), 0 ≤ A →
      (calculate_payment_schedule A f = Except.error ⟨f, VALID_FREQUENCIES⟩ ↔
        pyLower f ∉ VALID_FREQUENCIES) ∧
      (pyLower f ∈ VALID_FREQUENCIES →
        calculate_payment_schedule A f = Except.ok
          ⟨round2 A, pyLower f, paymentsPerYear (pyLower f),
           round2 (A / (paymentsPerYear (pyLower f) : ℚ)),
           (List.range (paymentsPerYear (pyLower f))).map
             (fun i => (i + 1, round2 (A / (paymentsPerYear (pyLower f) : ℚ))))⟩) ∧
      (∀ ps, calculate_payment_schedule A f = Except.ok ps →
        ps.schedule.length = ps.number_of_payments) ∧
      paymentsPerYear "monthly" = 12 ∧ paymentsPerYear "quarterly" = 4 ∧
      paymentsPerYear "annual" = 1 := by
  intro A f _
  refine ⟨⟨fun he => ?_, fun hv => ?_⟩, fun hv => ?_, fun ps hps => ?_,
    by decide, by decide, by decide⟩
  · by_contra hv
    rw [calculate_payment_schedule, if_neg (not_not_intro hv)] at he
    simp at he
  · rw [calculate_payment_schedule, if_pos hv]
  · rw [calculate_payment_schedule, if_neg (not_not_intro hv)]
  · by_cases hv : pyLower f ∈ VALID_FREQUENCIES
    · rw [calculate_payment_schedule, if_neg (not_not_intro hv)] at hps
      simp only [Except.ok.injEq] at hps
      subst hps
      simp
    · rw [calculate_payment_schedule, if_pos hv] at hps
      simp at hps

/-- Witness for C4 at the concrete input `A = 1000`, `f = "bogus"`. -/
theorem C4_payment_schedule_frequency_validation_witness :
    calculate_payment_schedule 1000 "bogus" =
      Except.error ⟨"bogus", VALID_FREQUENCIES⟩ :=
  (C4_payment_schedule_frequency_validation 1000 "bogus" (by norm_num)).1.2
    (by decide)

lemma paymentsPerYear_pos (s : String) : 0 < paymentsPerYear s := by
  rw [paymentsPerYear]
  split_ifs <;> norm_num

/-- C8: for a valid frequency the per-payment amount is `round(A / count, 2)`
of the unrounded annual total, and count × per-payment differs from `A` by at
most count × 0.01; no reconciliation is applied. -/
theorem C8_schedule_amount_reconciliation :
    ∀ (A : ℚ) (f : String), 0 ≤ A → pyLower f ∈ VALID_FREQUENCIES →
      ∀ ps, calculate_payment_schedule A f = Except.ok ps →
        ps.payment_amount = round2 (A / (ps.number_of_payments : ℚ)) ∧
        |(ps.number_of_payments : ℚ) * ps.payment_amount - A| ≤
          (ps.number_of_payments : ℚ) * (1 / 100) := by
  intro A f _ hv ps hps
  rw [calculate_payment_schedule, if_neg (not_not_intro hv)] at hps
  simp only [Except.ok.injEq] at hps
  subst hps
  refine ⟨rfl, ?_⟩
  show |((paymentsPerYear (pyLower f) : ℚ)) *
      round2 (A / (paymentsPerYear (pyLower f) : ℚ)) - A| ≤
    (paymentsPerYear (pyLower f) : ℚ) * (1 / 100)
  have hnp : (0 : ℚ) < (paymentsPerYear (pyLower f) : ℚ) := by
    exact_mod_cast paymentsPerYear_pos (pyLower f)
  have h1 := abs_round2_sub (A / (paymentsPerYear (pyLower f) : ℚ))
  have hA : (paymentsPerYear (pyLower f) : ℚ) *
      (A / (paymentsPerYear (pyLower f) : ℚ)) = A := by
    field_simp
  have key : (paymentsPerYear (pyLower f) : ℚ) *
        round2 (A / (paymentsPerYear (pyLower f) : ℚ)) - A =
      (paymentsPerYear (pyLower f) : ℚ) *
        (round2 (A / (paymentsPerYear (pyLower f) : ℚ)) -
          A / (paymentsPerYear (pyLower f) : ℚ)) := by
    rw [mul_sub, hA]
  calc |((paymentsPerYear (pyLower f) : ℚ)) *
        round2 (A / (paymentsPerYear (pyLower f) : ℚ)) - A|
      = |(paymentsPerYear (pyLower f) : ℚ)| *
          |round2 (A / (paymentsPerYear (pyLower f) : ℚ)) -
            A / (paymentsPerYear (pyLower f) : ℚ)| := by
        rw [key, abs_mul]
    _ ≤ (paymentsPerYear (pyLower f) : ℚ) * (1 / 200) := by
        rw [abs_of_pos hnp]
        exact mul_le_mul_of_nonneg_left h1 hnp.le
    _ ≤ (paymentsPerYear (pyLower f) : ℚ) * (1 / 100) := by nlinarith

/-- Witness for C8 at the concrete input `A = 100`, `f = "monthly"`. -/
theorem C8_schedule_amount_reconciliation_witness :
    |((paymentsPerYear (pyLower "monthly") : ℚ)) *
        round2 (100 / (paymentsPerYear (pyLower "monthly") : ℚ)) - 100| ≤
      (paymentsPerYear (pyLower "monthly") : ℚ) * (1 / 100) := by
  have hok : calculate_payment_schedule 100 "monthly" = Except.ok
      ⟨round2 100, pyLower "monthly", paymentsPerYear (pyLower "monthly"),
       round2 (100 / (paymentsPerYear (pyLower "monthly") : ℚ)),
       (List.range (paymentsPerYear (pyLower "monthly"))).map
         (fun i => (i + 1, round2 (100 / (paymentsPerYear (pyLower "monthly") : ℚ))))⟩ := by
    rw [calculate_payment_schedule, if_neg (by decide)]
  exact (C8_schedule_amount_reconciliation 100 "monthly" (by norm_num) (by decide)
    _ hok).2

end TaxCalc
